import Mathlib

/-!
Verification of bc/monitoring/block_drift/block_drift_exporter.py.

The script is a single-file Prometheus exporter: a static registry of
chain configurations, a height fetcher that issues one JSON-RPC POST and
decodes the result field as base 16 or base 10, a metrics calculator that
renders three gauge lines (or one error comment), and a Flask route that
serves the freshly computed text with status 200.

The embedding below models JSON values, the relevant fragment of the
Python int conversion (sign, optional 0x prefix for base 16, surrounding
whitespace; digit-group underscores are not modelled, no string in this
development uses them), the upstream network as an oracle from URL and
request body to a response, and logging as an explicit list of emitted
lines. Exceptions raised and swallowed inside fetch_block_height are
modelled by the absent branch of Option together with the error log line
the except handler writes.
-/

/-- JSON values as decoded by the Python json module; numbers are
restricted to integers, which is all the exporter ever handles. -/
inductive Json where
  | null : Json
  | bool (b : Bool) : Json
  | num (n : Int) : Json
  | str (s : String) : Json
  | arr (xs : List Json) : Json
  | obj (fields : List (String × Json)) : Json

/-- Lookup of a key in a decoded JSON object, as Python dict indexing. -/
def lookupField (fields : List (String × Json)) (k : String) : Option Json :=
  (fields.find? (fun p => p.1 == k)).map Prod.snd

/-- Python dict.get on a decoded JSON object: a missing key and a key
bound to JSON null both give Python None, which the source code then
treats as the absent result (line 81 of the script). -/
def jsonGet (fields : List (String × Json)) (k : String) : Option Json :=
  match lookupField fields k with
  | some Json.null => none
  | r => r

/-- Surrounding whitespace tolerated by the Python int conversion. -/
def stripWS (cs : List Char) : List Char :=
  ((cs.dropWhile Char.isWhitespace).reverse.dropWhile Char.isWhitespace).reverse

/-- Hexadecimal digit test for the base 16 conversion. -/
def isHexDigitChar (c : Char) : Bool :=
  c.isDigit || (decide ('a' ≤ c) && decide (c ≤ 'f')) || (decide ('A' ≤ c) && decide (c ≤ 'F'))

/-- Value of a hexadecimal digit. -/
def hexDigitVal (c : Char) : Nat :=
  if c.isDigit then c.toNat - 48
  else if decide ('a' ≤ c) && decide (c ≤ 'f') then c.toNat - 87
  else c.toNat - 55

/-- Value of a decimal digit. -/
def decDigitVal (c : Char) : Nat := c.toNat - 48

/-- Digit-string parsing shared by both bases: a nonempty run of valid
digits evaluates by Horner, anything else is a ValueError. -/
def parseDigits (base : Nat) (isD : Char → Bool) (val : Char → Nat) (cs : List Char) : Option Nat :=
  if cs.isEmpty || !(cs.all isD) then none
  else some (cs.foldl (fun a c => a * base + val c) 0)

/-- Base 10 digit run. -/
def parseDec (cs : List Char) : Option Nat := parseDigits 10 Char.isDigit decDigitVal cs

/-- Base 16 digit run. -/
def parseHex (cs : List Char) : Option Nat := parseDigits 16 isHexDigitChar hexDigitVal cs

/-- Optional 0x or 0X marker accepted by int with base 16. -/
def dropHexTag : List Char → List Char
  | '0' :: 'x' :: rest => rest
  | '0' :: 'X' :: rest => rest
  | cs => cs

/-- Python int applied to a string with default base 10: optional
whitespace, optional sign, then decimal digits; none is a ValueError. -/
def pyIntDec (s : String) : Option Int :=
  match stripWS s.toList with
  | '-' :: rest => (parseDec rest).map (fun n => -(Int.ofNat n))
  | '+' :: rest => (parseDec rest).map Int.ofNat
  | cs => (parseDec cs).map Int.ofNat

/-- Python int applied to a string with base 16: optional whitespace,
optional sign, optional 0x marker, then hex digits. -/
def pyIntHex (s : String) : Option Int :=
  match stripWS s.toList with
  | '-' :: rest => (parseHex (dropHexTag rest)).map (fun n => -(Int.ofNat n))
  | '+' :: rest => (parseHex (dropHexTag rest)).map Int.ofNat
  | cs => (parseHex (dropHexTag cs)).map Int.ofNat

/-- Python int(result, 16) on a decoded JSON value, line 83 of the
script with is_hex true: only a string is accepted, any other type
raises TypeError, modelled as none. -/
def pyIntBase16 : Json → Option Int
  | Json.str s => pyIntHex s
  | _ => none

/-- Python int(result) on a decoded JSON value, line 83 of the script
with is_hex false: an integer passes through, a bool converts to 0 or 1,
a string parses in base 10, any other type raises TypeError. -/
def pyIntAny : Json → Option Int
  | Json.num n => some n
  | Json.bool b => some (if b then 1 else 0)
  | Json.str s => pyIntDec s
  | _ => none

/-- Outcome of the HTTP POST issued by fetch_block_height: the request
fails in transport, or returns a body that is not JSON, or returns a
decoded JSON document. -/
inductive UpstreamResponse where
  | transportError : UpstreamResponse
  | nonJsonBody : UpstreamResponse
  | jsonBody (j : Json) : UpstreamResponse

/-- Log line written by the except handler at line 85; the exporter
interpolates the offending URL (the exception detail that follows it is
not modelled). -/
def failLog (url : String) : String :=
  "Failed to fetch block height from " ++ url

/-- fetch_block_height, lines 77 to 86. The network is an oracle from
URL and request body to an UpstreamResponse. Returns the optional height
together with the list of log lines emitted. A transport error, a body
that is not JSON, a JSON body that is not an object (dict.get raises
AttributeError), and an unparseable result all raise, are swallowed, and
log once; a missing or null result field returns early at line 82 with
no log at all. -/
def fetch_block_height (net : String → Json → UpstreamResponse) (url : String) (body : Json) (is_hex : Bool) : Option Int × List String :=
  match net url body with
  | UpstreamResponse.transportError => (none, [failLog url])
  | UpstreamResponse.nonJsonBody => (none, [failLog url])
  | UpstreamResponse.jsonBody (Json.obj fields) =>
    match jsonGet fields "result" with
    | none => (none, [])
    | some r =>
      match (if is_hex then pyIntBase16 r else pyIntAny r) with
      | some v => (some v, [])
      | none => (none, [failLog url])
  | UpstreamResponse.jsonBody _ => (none, [failLog url])

/-- Prometheus gauge sample line as formatted at lines 98 to 100:
name, literal chain label, value, newline. -/
def gaugeLine (name chain : String) (v : Int) : String :=
  name ++ "\x7bchain=\"" ++ chain ++ "\"\x7d " ++ toString v ++ "\n"

/-- Error comment line returned at line 94 when either height is absent. -/
def errorLine (chain : String) : String :=
  "# Error: could not retrieve block height for chain \x27" ++ chain ++ "\x27\n"

/-- calculate_metrics, lines 89 to 101: fetch remote then local, emit
the single error comment if either is absent, otherwise the three gauge
lines with drift equal to remote minus local. The second component
collects the log lines of both fetches in order. -/
def calculate_metrics (net : String → Json → UpstreamResponse) (chain local_url remote_url : String) (body : Json) (is_hex : Bool) : String × List String :=
  let remoteF := fetch_block_height net remote_url body is_hex
  let localF := fetch_block_height net local_url body is_hex
  let logs := remoteF.2 ++ localF.2
  match remoteF.1, localF.1 with
  | some remote_block, some local_block =>
    (gaugeLine "chain_block_height_local" chain local_block ++
     gaugeLine "chain_block_height_remote" chain remote_block ++
     gaugeLine "chain_block_height_drift" chain (remote_block - local_block), logs)
  | _, _ => (errorLine chain, logs)

/-- Per-chain configuration, the value type of CHAIN_CONFIGS. The source
dict keys local and remote are rendered local_url and remote_url because
local is a Lean keyword. -/
structure ChainConfig where
  local_url : String
  remote_url : String
  is_hex : Bool
  jsonrpc_body : Json

/-- JSON-RPC request body shared by the eight EVM chains. -/
def evmBody : Json :=
  Json.obj [("jsonrpc", Json.str "2.0"), ("id", Json.num 1),
            ("method", Json.str "eth_blockNumber"), ("params", Json.arr [])]

/-- Registry entry for sol, lines 20 to 25. -/
def solConfig : ChainConfig :=
  ⟨"http://127.0.0.1:8899", "https://api.mainnet-beta.solana.com", false,
   Json.obj [("jsonrpc", Json.str "2.0"), ("id", Json.num 1),
             ("method", Json.str "getBlockHeight")]⟩

/-- Registry entry for eth, lines 26 to 31. -/
def ethConfig : ChainConfig :=
  ⟨"http://127.0.0.1:8545", "https://ethereum.llamarpc.com", true, evmBody⟩

/-- Registry entry for bsc, lines 32 to 37. -/
def bscConfig : ChainConfig :=
  ⟨"http://127.0.0.1:8545", "https://bsc-dataseed1.binance.org/", true, evmBody⟩

/-- Registry entry for base, lines 38 to 43. -/
def baseConfig : ChainConfig :=
  ⟨"http://127.0.0.1:8545", "https://mainnet.base.org", true, evmBody⟩

/-- Registry entry for sonic, lines 44 to 49. -/
def sonicConfig : ChainConfig :=
  ⟨"http://127.0.0.1:18545", "https://sonic-rpc.publicnode.com:443", true, evmBody⟩

/-- Registry entry for bera, lines 50 to 55. -/
def beraConfig : ChainConfig :=
  ⟨"http://127.0.0.1:8545", "https://berachain-rpc.publicnode.com", true, evmBody⟩

/-- Registry entry for story, lines 56 to 61. -/
def storyConfig : ChainConfig :=
  ⟨"http://127.0.0.1:8545", "https://mainnet.storyrpc.io", true, evmBody⟩

/-- Registry entry for pulse, lines 62 to 67. -/
def pulseConfig : ChainConfig :=
  ⟨"http://127.0.0.1:8545", "https://pulsechain-rpc.publicnode.com", true, evmBody⟩

/-- Registry entry for avalanchego, lines 68 to 73. -/
def avalanchegoConfig : ChainConfig :=
  ⟨"http://127.0.0.1:8545/ext/bc/C/rpc", "https://avalanche.therpc.io", true, evmBody⟩

/-- CHAIN_CONFIGS, lines 19 to 74, as an association list in source
order. -/
def CHAIN_CONFIGS : List (String × ChainConfig) :=
  [("sol", solConfig), ("eth", ethConfig), ("bsc", bscConfig), ("base", baseConfig),
   ("sonic", sonicConfig), ("bera", beraConfig), ("story", storyConfig),
   ("pulse", pulseConfig), ("avalanchego", avalanchegoConfig)]

/-- Method field of the JSON-RPC body of a configuration. -/
def methodOf (cfg : ChainConfig) : Option Json :=
  match cfg.jsonrpc_body with
  | Json.obj fields => lookupField fields "method"
  | _ => none

/-- Checks the ecosystem convention of one registry entry: sol uses the
decimal getBlockHeight method, every other chain the hexadecimal
eth_blockNumber method. -/
def chainConventionOK (p : String × ChainConfig) : Bool :=
  if p.1 = "sol" then
    !p.2.is_hex &&
      (match methodOf p.2 with
       | some (Json.str m) => m = "getBlockHeight"
       | _ => false)
  else
    p.2.is_hex &&
      (match methodOf p.2 with
       | some (Json.str m) => m = "eth_blockNumber"
       | _ => false)

/-- URL override step of main, lines 131 to 136: a supplied remote or
local argument replaces the corresponding URL, except that Python
truthiness makes the empty string behave as if the flag were absent. -/
def applyOverrides (cfg : ChainConfig) (remoteArg localArg : Option String) : ChainConfig :=
  let c1 : ChainConfig :=
    match remoteArg with
    | some r => if r = "" then cfg else ⟨cfg.local_url, r, cfg.is_hex, cfg.jsonrpc_body⟩
    | none => cfg
  match localArg with
  | some l => if l = "" then c1 else ⟨l, c1.remote_url, c1.is_hex, c1.jsonrpc_body⟩
  | none => c1

/-- HTTP response returned by the Flask route: Flask Response with
default status 200 and the given mimetype. -/
structure HttpResponse where
  status : Nat
  mimetype : String
  body : String

/-- Flask route metrics, lines 104 to 114: recompute the metrics text
from the current configuration, log the export, and answer with status
200, mimetype text/plain and the text plus a trailing newline. The
second component is the list of log lines emitted while handling the
request. -/
def metrics (net : String → Json → UpstreamResponse) (chain : String) (cfg : ChainConfig) : HttpResponse × List String :=
  let out := calculate_metrics net chain cfg.local_url cfg.remote_url cfg.jsonrpc_body cfg.is_hex
  (⟨200, "text/plain", out.1 ++ "\n"⟩, out.2 ++ ["Exported metrics for " ++ chain])

/-- Demonstration network for the drift computation: the URL L answers
height 100, every other URL answers height 105. -/
def netDriftDemo : String → Json → UpstreamResponse :=
  fun u _ =>
    if u = "L" then UpstreamResponse.jsonBody (Json.obj [("result", Json.str "100")])
    else UpstreamResponse.jsonBody (Json.obj [("result", Json.str "105")])

/-- Demonstration network where the local URL L is unreachable and every
other URL answers height 105. -/
def netLocalDown : String → Json → UpstreamResponse :=
  fun u _ =>
    if u = "L" then UpstreamResponse.transportError
    else UpstreamResponse.jsonBody (Json.obj [("result", Json.str "105")])

/-- Result values that do not encode a negative number: a non-negative
JSON integer, or a string without a minus sign. -/
def nonNegResult : Json → Bool
  | Json.num n => decide (0 ≤ n)
  | Json.str s => !(decide ('-' ∈ s.toList))
  | _ => true

/-- Membership in the whitespace-stripped character list implies
membership in the original list. -/
theorem mem_of_mem_stripWS {c : Char} {cs : List Char} (h : c ∈ stripWS cs) : c ∈ cs := by
  unfold stripWS at h
  rw [List.mem_reverse] at h
  have h1 := (List.dropWhile_sublist Char.isWhitespace).subset h
  rw [List.mem_reverse] at h1
  exact (List.dropWhile_sublist Char.isWhitespace).subset h1

/-- A decimal conversion of a string without a minus sign is
non-negative. -/
theorem pyIntDec_nonneg {s : String} {v : Int} (hnm : ¬ ('-' ∈ s.toList)) (h : pyIntDec s = some v) : 0 ≤ v := by
  unfold pyIntDec at h
  split at h
  all_goals first
    | exact absurd (mem_of_mem_stripWS (by rename_i heq; rw [heq]; exact List.mem_cons_self _ _)) hnm
    | (rcases Option.map_eq_some'.1 h with ⟨n, _, rfl⟩; exact Int.natCast_nonneg n)

/-- A hexadecimal conversion of a string without a minus sign is
non-negative. -/
theorem pyIntHex_nonneg {s : String} {v : Int} (hnm : ¬ ('-' ∈ s.toList)) (h : pyIntHex s = some v) : 0 ≤ v := by
  unfold pyIntHex at h
  split at h
  all_goals first
    | exact absurd (mem_of_mem_stripWS (by rename_i heq; rw [heq]; exact List.mem_cons_self _ _)) hnm
    | (rcases Option.map_eq_some'.1 h with ⟨n, _, rfl⟩; exact Int.natCast_nonneg n)

/-- C1: whenever both fetches succeed, calculate_metrics returns exactly
the three gauge lines for local, remote and drift, each carrying the
literal chain label, with the drift value equal to remote minus local. -/
theorem spec_c1_three_gauge_lines (net : String → Json → UpstreamResponse) (chain local_url remote_url : String) (body : Json) (is_hex : Bool) (lb rb : Int) (hr : (fetch_block_height net remote_url body is_hex).1 = some rb) (hl : (fetch_block_height net local_url body is_hex).1 = some lb) : (calculate_metrics net chain local_url remote_url body is_hex).1 = gaugeLine "chain_block_height_local" chain lb ++ gaugeLine "chain_block_height_remote" chain rb ++ gaugeLine "chain_block_height_drift" chain (rb - lb) := by
  simp [calculate_metrics, hr, hl]

/-- Witness for C1 at local 100 and remote 105: the drift gauge carries 5. -/
theorem spec_c1_three_gauge_lines_witness : (calculate_metrics netDriftDemo "eth" "L" "R" (Json.obj []) false).1 = gaugeLine "chain_block_height_local" "eth" 100 ++ gaugeLine "chain_block_height_remote" "eth" 105 ++ gaugeLine "chain_block_height_drift" "eth" 5 := by
  have h := spec_c1_three_gauge_lines netDriftDemo "eth" "L" "R" (Json.obj []) false 100 105 (by decide) (by decide)
  have e : (105 : Int) - 100 = 5 := by decide
  rw [e] at h
  exact h

/-- C2: whenever either fetch is absent, calculate_metrics returns
exactly the single error comment line and no gauge line. -/
theorem spec_c2_error_comment (net : String → Json → UpstreamResponse) (chain local_url remote_url : String) (body : Json) (is_hex : Bool) (h : (fetch_block_height net remote_url body is_hex).1 = none ∨ (fetch_block_height net local_url body is_hex).1 = none) : (calculate_metrics net chain local_url remote_url body is_hex).1 = errorLine chain := by
  rcases h with h | h
  · simp [calculate_metrics, h]
  · cases hr : (fetch_block_height net remote_url body is_hex).1 <;>
      simp [calculate_metrics, h, hr]

/-- Witness for C2: local fetch down, remote at 105, only the comment. -/
theorem spec_c2_error_comment_witness : (calculate_metrics netLocalDown "eth" "L" "R" (Json.obj []) false).1 = errorLine "eth" :=
  spec_c2_error_comment netLocalDown "eth" "L" "R" (Json.obj []) false (Or.inr (by decide))

/-- C3: a result of 0x10 under the hexadecimal convention and a result
of 16 under the decimal convention both fetch as height 16. -/
theorem spec_c3_hex_and_decimal_parse : (fetch_block_height (fun _ _ => UpstreamResponse.jsonBody (Json.obj [("result", Json.str "0x10")])) "u" (Json.obj []) true).1 = some 16 ∧ (fetch_block_height (fun _ _ => UpstreamResponse.jsonBody (Json.obj [("result", Json.str "16")])) "u" (Json.obj []) false).1 = some 16 := by
  decide

/-- C4: a transport error, a body that is not JSON, and a JSON object
without a result field all yield the absent height; the embedding is a
total function, so no exception escapes the fetcher. -/
theorem spec_c4_absent_on_failure (net : String → Json → UpstreamResponse) (url : String) (body : Json) (is_hex : Bool) (h : net url body = UpstreamResponse.transportError ∨ net url body = UpstreamResponse.nonJsonBody ∨ ∃ fields, net url body = UpstreamResponse.jsonBody (Json.obj fields) ∧ lookupField fields "result" = none) : (fetch_block_height net url body is_hex).1 = none := by
  rcases h with h | h | ⟨fields, h, hf⟩
  · simp [fetch_block_height, h]
  · simp [fetch_block_height, h]
  · simp [fetch_block_height, h, jsonGet, hf]

/-- Witness for C4 at a transport error. -/
theorem spec_c4_absent_on_failure_witness : (fetch_block_height (fun _ _ => UpstreamResponse.transportError) "u" (Json.obj []) true).1 = none :=
  spec_c4_absent_on_failure _ "u" (Json.obj []) true (Or.inl rfl)

/-- C5: the registry holds exactly the nine supported chains; sol is the
single decimal chain with method getBlockHeight, the other eight use the
hexadecimal convention with method eth_blockNumber. -/
theorem spec_c5_registry_conventions : CHAIN_CONFIGS.map Prod.fst = ["sol", "eth", "bsc", "base", "sonic", "bera", "story", "pulse", "avalanchego"] ∧ CHAIN_CONFIGS.length = 9 ∧ CHAIN_CONFIGS.all chainConventionOK = true := by
  decide

/-- C9: the metrics route always answers with status 200, mimetype
text/plain, and the freshly computed text plus a trailing newline, for
every network behaviour including failing fetches. -/
theorem spec_c9_always_200 (net : String → Json → UpstreamResponse) (chain : String) (cfg : ChainConfig) : (metrics net chain cfg).1.status = 200 ∧ (metrics net chain cfg).1.mimetype = "text/plain" ∧ (metrics net chain cfg).1.body = (calculate_metrics net chain cfg.local_url cfg.remote_url cfg.jsonrpc_body cfg.is_hex).1 ++ "\n" :=
  ⟨rfl, rfl, rfl⟩

/-- C10: a JSON number result passes through the decimal path unchanged
but makes the hexadecimal path absent, so the two paths are not
symmetric on non-string results. -/
theorem spec_c10_number_result (net : String → Json → UpstreamResponse) (url : String) (body : Json) (n : Int) (h : net url body = UpstreamResponse.jsonBody (Json.obj [("result", Json.num n)])) : (fetch_block_height net url body false).1 = some n ∧ (fetch_block_height net url body true).1 = none := by
  constructor <;> simp [fetch_block_height, h, jsonGet, lookupField, pyIntAny, pyIntBase16]

/-- Witness for C10 at the number 42. -/
theorem spec_c10_number_result_witness : (fetch_block_height (fun _ _ => UpstreamResponse.jsonBody (Json.obj [("result", Json.num 42)])) "u" (Json.obj []) false).1 = some 42 ∧ (fetch_block_height (fun _ _ => UpstreamResponse.jsonBody (Json.obj [("result", Json.num 42)])) "u" (Json.obj []) true).1 = none :=
  spec_c10_number_result _ "u" (Json.obj []) 42 rfl

/-- C6 counterexample: supplying the empty string as the remote
override leaves the registry default in place, because the source tests
the argument by Python truthiness; the subsequent fetches therefore do
not use the supplied override value. -/
theorem spec_c6_empty_override_counterexample : (applyOverrides solConfig (some "") (some "http://x")).remote_url = "https://api.mainnet-beta.solana.com" ∧ (applyOverrides solConfig (some "") (some "http://x")).remote_url ≠ "" := by
  decide

/-- C6 amended: for every pair of nonempty override URLs, the override
installs exactly those URLs while is_hex and the JSON-RPC body are
unchanged. -/
theorem spec_c6_override_frame (cfg : ChainConfig) (r l : String) (hr : r ≠ "") (hl : l ≠ "") : (applyOverrides cfg (some r) (some l)).remote_url = r ∧ (applyOverrides cfg (some r) (some l)).local_url = l ∧ (applyOverrides cfg (some r) (some l)).is_hex = cfg.is_hex ∧ (applyOverrides cfg (some r) (some l)).jsonrpc_body = cfg.jsonrpc_body := by
  simp [applyOverrides, hr, hl]

/-- Witness for the amended C6 on the sol configuration. -/
theorem spec_c6_override_frame_witness : (applyOverrides solConfig (some "http://r") (some "http://l")).remote_url = "http://r" ∧ (applyOverrides solConfig (some "http://r") (some "http://l")).local_url = "http://l" ∧ (applyOverrides solConfig (some "http://r") (some "http://l")).is_hex = solConfig.is_hex ∧ (applyOverrides solConfig (some "http://r") (some "http://l")).jsonrpc_body = solConfig.jsonrpc_body :=
  spec_c6_override_frame solConfig "http://r" "http://l" (by decide) (by decide)

/-- C7 counterexample: a JSON body without a result field is a failing
fetch, it returns the absent height, yet no log line at all is emitted,
against the claimed exactly one line. -/
theorem spec_c7_missing_result_counterexample : (fetch_block_height (fun _ _ => UpstreamResponse.jsonBody (Json.obj [])) "http://node" (Json.obj []) true).1 = none ∧ (fetch_block_height (fun _ _ => UpstreamResponse.jsonBody (Json.obj [])) "http://node" (Json.obj []) true).2 = [] := by
  decide

/-- C7 amended: a successful fetch logs nothing; a transport error, a
body that is not JSON, and an unparseable result each log exactly one
line carrying the offending URL; a JSON object whose result field is
missing returns the absent height silently, with no log line. -/
theorem spec_c7_failure_logging (net : String → Json → UpstreamResponse) (url : String) (body : Json) (is_hex : Bool) : ((fetch_block_height net url body is_hex).1.isSome = true → (fetch_block_height net url body is_hex).2 = []) ∧ (net url body = UpstreamResponse.transportError → (fetch_block_height net url body is_hex).2 = [failLog url]) ∧ (net url body = UpstreamResponse.nonJsonBody → (fetch_block_height net url body is_hex).2 = [failLog url]) ∧ (∀ fields, net url body = UpstreamResponse.jsonBody (Json.obj fields) → jsonGet fields "result" = none → (fetch_block_height net url body is_hex).2 = []) ∧ (∀ fields r, net url body = UpstreamResponse.jsonBody (Json.obj fields) → jsonGet fields "result" = some r → (if is_hex then pyIntBase16 r else pyIntAny r) = none → (fetch_block_height net url body is_hex).2 = [failLog url]) := by
  refine ⟨?_, ?_, ?_, ?_, ?_⟩
  · intro h
    cases hnet : net url body with
    | transportError => simp [fetch_block_height, hnet] at h
    | nonJsonBody => simp [fetch_block_height, hnet] at h
    | jsonBody j =>
      cases j with
      | obj fields =>
        cases hg : jsonGet fields "result" with
        | none => simp [fetch_block_height, hnet, hg]
        | some r =>
          cases hp : (if is_hex then pyIntBase16 r else pyIntAny r) with
          | none => simp [fetch_block_height, hnet, hg, hp] at h
          | some v => simp [fetch_block_height, hnet, hg, hp]
      | null => simp [fetch_block_height, hnet] at h
      | bool b => simp [fetch_block_height, hnet] at h
      | num n => simp [fetch_block_height, hnet] at h
      | str s => simp [fetch_block_height, hnet] at h
      | arr xs => simp [fetch_block_height, hnet] at h
  · intro h
    simp [fetch_block_height, h]
  · intro h
    simp [fetch_block_height, h]
  · intro fields h hg
    simp [fetch_block_height, h, hg]
  · intro fields r h hg hp
    simp [fetch_block_height, h, hg, hp]

/-- Witness for the amended C7, one clause per logging case. -/
theorem spec_c7_failure_logging_witness : (fetch_block_height (fun _ _ => UpstreamResponse.jsonBody (Json.obj [("result", Json.str "10")])) "u" (Json.obj []) false).2 = [] ∧ (fetch_block_height (fun _ _ => UpstreamResponse.transportError) "u" (Json.obj []) false).2 = [failLog "u"] ∧ (fetch_block_height (fun _ _ => UpstreamResponse.nonJsonBody) "u" (Json.obj []) false).2 = [failLog "u"] ∧ (fetch_block_height (fun _ _ => UpstreamResponse.jsonBody (Json.obj [])) "u" (Json.obj []) false).2 = [] ∧ (fetch_block_height (fun _ _ => UpstreamResponse.jsonBody (Json.obj [("result", Json.str "xyz")])) "u" (Json.obj []) false).2 = [failLog "u"] :=
  ⟨(spec_c7_failure_logging _ "u" (Json.obj []) false).1 (by decide),
   (spec_c7_failure_logging _ "u" (Json.obj []) false).2.1 rfl,
   (spec_c7_failure_logging _ "u" (Json.obj []) false).2.2.1 rfl,
   (spec_c7_failure_logging _ "u" (Json.obj []) false).2.2.2.1 [] rfl rfl,
   (spec_c7_failure_logging _ "u" (Json.obj []) false).2.2.2.2 [("result", Json.str "xyz")] (Json.str "xyz") rfl rfl (by decide)⟩

/-- C8 counterexample: an upstream result of the string -1 under the
decimal convention fetches as the present value -1, a negative height. -/
theorem spec_c8_negative_counterexample : (fetch_block_height (fun _ _ => UpstreamResponse.jsonBody (Json.obj [("result", Json.str "-1")])) "u" (Json.obj []) false).1 = some (-1) ∧ ((-1 : Int) < 0) := by
  decide

/-- C8 amended: a present height is non-negative whenever the upstream
result does not encode a negative number, that is, when it is a
non-negative JSON integer or a string without a minus sign; decoding
otherwise trusts the source and can return a negative value. -/
theorem spec_c8_nonneg_when_source_nonneg (net : String → Json → UpstreamResponse) (url : String) (body : Json) (is_hex : Bool) (fields : List (String × Json)) (r : Json) (v : Int) (hnet : net url body = UpstreamResponse.jsonBody (Json.obj fields)) (hg : jsonGet fields "result" = some r) (hnn : nonNegResult r = true) (hv : (fetch_block_height net url body is_hex).1 = some v) : 0 ≤ v := by
  simp only [fetch_block_height, hnet, hg] at hv
  cases hp : (if is_hex then pyIntBase16 r else pyIntAny r) with
  | none => simp [hp] at hv
  | some w =>
    simp [hp] at hv
    subst hv
    cases is_hex with
    | true =>
      simp at hp
      cases r with
      | str s =>
        simp only [nonNegResult, Bool.not_eq_true', decide_eq_false_iff_not] at hnn
        exact pyIntHex_nonneg hnn hp
      | null => simp [pyIntBase16] at hp
      | bool b => simp [pyIntBase16] at hp
      | num n => simp [pyIntBase16] at hp
      | arr xs => simp [pyIntBase16] at hp
      | obj f => simp [pyIntBase16] at hp
    | false =>
      simp at hp
      cases r with
      | num n =>
        simp only [pyIntAny, Option.some_inj] at hp
        subst hp
        simpa [nonNegResult] using hnn
      | bool b =>
        simp only [pyIntAny, Option.some_inj] at hp
        subst hp
        cases b <;> decide
      | str s =>
        simp only [nonNegResult, Bool.not_eq_true', decide_eq_false_iff_not] at hnn
        exact pyIntDec_nonneg hnn hp
      | null => simp [pyIntAny] at hp
      | arr xs => simp [pyIntAny] at hp
      | obj f => simp [pyIntAny] at hp

/-- Witness for the amended C8 at a hexadecimal result of 0x10. -/
theorem spec_c8_nonneg_when_source_nonneg_witness : nonNegResult (Json.str "0x10") = true ∧ (0 : Int) ≤ 16 :=
  ⟨by decide,
   spec_c8_nonneg_when_source_nonneg (fun _ _ => UpstreamResponse.jsonBody (Json.obj [("result", Json.str "0x10")])) "u" (Json.obj []) true [("result", Json.str "0x10")] (Json.str "0x10") 16 rfl rfl (by decide) (by decide)⟩
